import Mathlib

/-!
Verification of the Job Admission and Deduplication Orchestrator of
content-generation/server.py against its natural-language specification.

The relevant parts of the Python source are shallowly embedded:

* the two regular expressions of extract_video_id are embedded as explicit
  scanning functions over lists of characters, reproducing the semantics of
  re.search on these particular patterns (leftmost match, alternatives in
  order; the two alternation branches of the URL pattern can never match at
  the same position, and the capture group consumes exactly eleven
  characters of the restricted class);
* the filesystem is a partial map from path strings to file contents, and
  os.path.exists is its domain test;
* subprocess.Popen is an oracle from a video id to either a process id or
  the message of the raised exception; the dispatch loop threads it exactly
  as the source does, inside one try block whose handler answers with a 500
  response, so the first raised launch error abandons the rest of the loop;
* the five terminal responses of handle_process become the five
  constructors of ProcResult, each carrying the fields of the JSON body it
  serializes.
-/

namespace EasySong

/-- Character class of the regex fragment [a-zA-Z0-9_-]: ASCII letters,
digits, hyphen and underscore. -/
def isIdChar (c : Char) : Bool :=
  c.isAlphanum || c == '-' || c == '_'

/-- The literal alternative youtube.com/watch?v= of the URL pattern. -/
def watchMarker : List Char := "youtube.com/watch?v=".data

/-- The literal alternative youtu.be/ of the URL pattern. -/
def shortMarker : List Char := "youtu.be/".data

/-- The literal alternative youtube.com/embed/ of the URL pattern. -/
def embedMarker : List Char := "youtube.com/embed/".data

/-- begins m s is true when the character list m is an initial segment of
s; it is how a regex literal such as youtu.be/ matches at one position. -/
def begins : List Char → List Char → Bool
  | [], _ => true
  | _ :: _, [] => false
  | a :: as, b :: bs => (a == b) && begins as bs

/-- The capture group ([a-zA-Z0-9_-]\x7b11\x7d): consume exactly eleven
characters of the id class from the remainder, or fail. -/
def captureId (rest : List Char) : Option (List Char) :=
  let cand := rest.take 11
  if cand.length == 11 && cand.all isIdChar then some cand else none

/-- Match one marker alternative at the current position and, on success,
run the capture group on what follows it. -/
def tryMarker (m s : List Char) : Option (List Char) :=
  if begins m s then captureId (s.drop m.length) else none

/-- One position of the URL pattern: the three alternatives are tried in
the order they are written in the source regex. -/
def tryUrlPatternAt (s : List Char) : Option (List Char) :=
  (tryMarker watchMarker s).orElse fun _ =>
    (tryMarker shortMarker s).orElse fun _ =>
      tryMarker embedMarker s

/-- re.search of the unanchored URL pattern: scan positions left to right
and return the leftmost capture. -/
def searchUrlPattern : List Char → Option (List Char)
  | [] => none
  | c :: cs => (tryUrlPatternAt (c :: cs)).orElse fun _ => searchUrlPattern cs

/-- re.search of the anchored pattern for a bare token. Python re lets the
final anchor also match just before one trailing newline, so that case is
included. -/
def bareToken (s : List Char) : Option (List Char) :=
  let core := if s.getLast? == some '\n' then s.dropLast else s
  if core.length == 11 && core.all isIdChar then some core else none

/-- extract_video_id of server.py: the URL pattern is tried first, then
the bare-token pattern; None becomes none. -/
def extract_video_id (url : String) : Option String :=
  match searchUrlPattern url.data with
  | some id => some (String.mk id)
  | none =>
    match bareToken url.data with
    | some id => some (String.mk id)
    | none => none

/-- The characters removed by the Python str.strip default. -/
def isPySpace (c : Char) : Bool :=
  c == ' ' || c == '\t' || c == '\n' || c == '\r' || c == '\x0b' || c == '\x0c'

/-- url.strip() of the extraction loop. -/
def pyStrip (s : String) : String :=
  String.mk (((s.data.dropWhile isPySpace).reverse.dropWhile isPySpace).reverse)

/-- The extraction loop of handle_process: strip each raw reference, skip
it silently when empty, append its id to video_ids on success and the
stripped string to invalid_urls on failure. Returns (video_ids,
invalid_urls) in submission order. -/
def splitUrls : List String → List String × List String
  | [] => ([], [])
  | url :: rest =>
    let u := pyStrip url
    let r := splitUrls rest
    if u = "" then r
    else
      match extract_video_id u with
      | some vid => (vid :: r.1, r.2)
      | none => (r.1, u :: r.2)

/-- SCRIPT_DIR of server.py is dirname(abspath(__file__)); its runtime
value depends on where the file sits, which no claim depends on, so a
fixed placeholder stands for it. -/
def SCRIPT_DIR : String := "content-generation"

/-- DATA_DIR of server.py. -/
def DATA_DIR : String := SCRIPT_DIR ++ "/data"

/-- Tier A storage, the raw-lyrics directory. -/
def RAW_LYRICS_DIR : String := DATA_DIR ++ "/raw-lyrics"

/-- Tier B storage, the transcribed-lyrics directory. -/
def TRANSCRIBED_LYRICS_DIR : String := DATA_DIR ++ "/transcribed-lyrics"

/-- os.path.join(RAW_LYRICS_DIR, videoId + ".json"). -/
def raw_path (id : String) : String :=
  RAW_LYRICS_DIR ++ "/" ++ (id ++ ".json")

/-- os.path.join(TRANSCRIBED_LYRICS_DIR, videoId + ".json"). -/
def transcribed_path (id : String) : String :=
  TRANSCRIBED_LYRICS_DIR ++ "/" ++ (id ++ ".json")

/-- os.path.exists over a filesystem modelled as a partial map from path
to file content: true exactly when the path is in the domain, regardless
of the content. It returns False rather than raising on any path. -/
def os_path_exists (fs : String → Option String) (p : String) : Bool :=
  (fs p).isSome

/-- The three existence buckets built by check_existing_videos, in the
order of the Python dict literal. -/
structure Existing where
  raw_lyrics : List String
  transcribed_lyrics : List String
  both : List String
deriving DecidableEq, Repr

/-- check_existing_videos of server.py: one pass over the ids, appending
each id to the bucket selected by the two existence probes, or to none of
them when both probes fail. -/
def check_existing_videos (fs : String → Option String) : List String → Existing
  | [] => ⟨[], [], []⟩
  | id :: rest =>
    let ex := check_existing_videos fs rest
    let has_raw := os_path_exists fs (raw_path id)
    let has_transcribed := os_path_exists fs (transcribed_path id)
    if has_raw && has_transcribed then { ex with both := id :: ex.both }
    else if has_raw then { ex with raw_lyrics := id :: ex.raw_lyrics }
    else if has_transcribed then { ex with transcribed_lyrics := id :: ex.transcribed_lyrics }
    else ex

/-- The list comprehension of handle_process computing new_video_ids: keep
each element of video_ids that sits in none of the three buckets. -/
def new_video_ids (fs : String → Option String) (video_ids : List String) : List String :=
  let existing := check_existing_videos fs video_ids
  video_ids.filter fun vid =>
    !existing.both.contains vid
      && !existing.raw_lyrics.contains vid
      && !existing.transcribed_lyrics.contains vid

/-- The per-id launch loop of handle_process. The popen oracle answers
with the process id of a started worker or with the message of the raised
exception. The first component lists the ids for which a launch was
attempted; the loop stops at the first raised exception, exactly as the
Python for loop inside the shared try block does, and the collected pids
of earlier successful launches are then discarded by the handler. -/
def dispatch (popen : String → Except String Nat) :
    List String → List String × Except String (List Nat)
  | [] => ([], Except.ok [])
  | id :: rest =>
    match popen id with
    | Except.error e => ([id], Except.error e)
    | Except.ok pid =>
      (id :: (dispatch popen rest).1,
        ((dispatch popen rest).2).map fun pids => pid :: pids)

/-- The five terminal responses of handle_process after a well-formed JSON
body was decoded, each carrying the fields of its JSON payload. -/
inductive ProcResult where
  | noUrls : ProcResult
  | noValidIds (invalid_urls : List String) : ProcResult
  | allExist (video_ids invalid_urls : List String) (existing : Existing) : ProcResult
  | dispatched (video_ids new_ids invalid_urls : List String)
      (existing : Existing) (process_ids : List Nat) : ProcResult
  | launchFailed (error : String) : ProcResult
deriving DecidableEq, Repr

/-- The HTTP status code each terminal response is sent with. -/
def ProcResult.status : ProcResult → Nat
  | .noUrls => 400
  | .noValidIds _ => 400
  | .allExist _ _ _ => 200
  | .dispatched _ _ _ _ _ => 200
  | .launchFailed _ => 500

/-- The skipped flag: present and true only in the all-exist response. -/
def ProcResult.skippedFlag : ProcResult → Bool
  | .allExist _ _ _ => true
  | _ => false

/-- The process_ids field of the response; none models its absence from
the JSON payload. -/
def ProcResult.processIds : ProcResult → Option (List Nat)
  | .dispatched _ _ _ _ pids => some pids
  | _ => none

/-- The invalid_urls field of the response; none models its absence. -/
def ProcResult.invalidUrls : ProcResult → Option (List String)
  | .noValidIds inv => some inv
  | .allExist _ inv _ => some inv
  | .dispatched _ _ inv _ _ => some inv
  | _ => none

/-- handle_process of server.py for a well-formed submission, from the
empty-batch test to the terminal response. The runtime probing, log
writes and environment set-up of the try block never raise in the source
(os.path.exists and glob return normally and the fallback is the bare
command name), so the fallible step of the block is the per-id launch,
carried by the popen oracle of dispatch. -/
def handle_process (fs : String → Option String)
    (popen : String → Except String Nat) (urls : List String) : ProcResult :=
  if urls = [] then .noUrls
  else
    let video_ids := (splitUrls urls).1
    if video_ids = [] then .noValidIds (splitUrls urls).2
    else
      let new_ids := new_video_ids fs video_ids
      if new_ids = [] then
        .allExist video_ids (splitUrls urls).2 (check_existing_videos fs video_ids)
      else
        match (dispatch popen new_ids).2 with
        | Except.error e => .launchFailed ("Failed to start process: " ++ e)
        | Except.ok pids =>
          .dispatched video_ids new_ids (splitUrls urls).2
            (check_existing_videos fs video_ids) pids

/-- A filesystem with no artifact at all. -/
def fsEmpty : String → Option String := fun _ => none

/-- A launch oracle for which every launch succeeds. -/
def popenOk : String → Except String Nat := fun _ => Except.ok 1000

/-- A launch oracle failing on every launch. -/
def popenBoom : String → Except String Nat := fun _ => Except.error "boom"

/-- A launch oracle failing exactly on the second of three ids used below. -/
def popenFailB : String → Except String Nat := fun id =>
  if id = "bbbbbbbbbbb" then Except.error "No such file or directory"
  else Except.ok 2000

/-- The example batch of the specification. -/
def exampleUrls : List String :=
  ["https://youtu.be/dQw4w9WgXcQ", "dQw4w9WgXcQ", "not-a-url"]

/-- Three bare eleven-character ids submitted as one batch. -/
def urlsABC : List String := ["aaaaaaaaaaa", "bbbbbbbbbbb", "ccccccccccc"]

/-- A filesystem holding both tier artifacts for one id. -/
def fsBothForA : String → Option String := fun p =>
  if p = raw_path "aaaaaaaaaaa" || p = transcribed_path "aaaaaaaaaaa"
  then some "x" else none

/-- A filesystem holding one zero-byte tier A artifact. -/
def fsZeroByte : String → Option String := fun p =>
  if p = raw_path "aaaaaaaaaaa" then some "" else none

/-- A filesystem holding, at the same path, a corrupt artifact. -/
def fsCorrupt : String → Option String := fun p =>
  if p = raw_path "aaaaaaaaaaa" then some "this is not json" else none

/-! ## Lemmas about the identifier extractor -/

theorem data_mk (l : List Char) : (String.mk l).data = l := rfl

theorem begins_append (m r : List Char) : begins m (m ++ r) = true := by
  induction m with
  | nil => rfl
  | cons a as ih => simp [begins, ih]

theorem captureId_exact (t : List Char) (h11 : t.length = 11)
    (hid : t.all isIdChar = true) : captureId t = some t := by
  have ht : t.take 11 = t := by rw [← h11]; exact List.take_length t
  simp [captureId, ht, h11, hid]

theorem tryMarker_self (m t : List Char) : tryMarker m (m ++ t) = captureId t := by
  simp [tryMarker, begins_append, List.drop_left]

theorem watch_not_at_short (t : List Char) :
    begins watchMarker (shortMarker ++ t) = false := rfl

theorem watch_not_at_embed (t : List Char) :
    begins watchMarker (embedMarker ++ t) = false := rfl

theorem short_not_at_embed (t : List Char) :
    begins shortMarker (embedMarker ++ t) = false := rfl

theorem searchUrl_of_head (s r : List Char) (hs : s ≠ [])
    (h : tryUrlPatternAt s = some r) : searchUrlPattern s = some r := by
  cases s with
  | nil => exact absurd rfl hs
  | cons c cs => simp [searchUrlPattern, h]

theorem marker_append_ne_nil (m t : List Char) (hm : m ≠ []) : m ++ t ≠ [] := by
  intro hn
  exact absurd (List.append_eq_nil.mp hn).1 hm

theorem searchUrl_watch (t : List Char) (h : captureId t = some t) :
    searchUrlPattern (watchMarker ++ t) = some t := by
  apply searchUrl_of_head _ _ (marker_append_ne_nil _ _ (by decide))
  simp [tryUrlPatternAt, tryMarker_self, h]

theorem searchUrl_short (t : List Char) (h : captureId t = some t) :
    searchUrlPattern (shortMarker ++ t) = some t := by
  apply searchUrl_of_head _ _ (marker_append_ne_nil _ _ (by decide))
  have h1 : tryMarker watchMarker (shortMarker ++ t) = none := by
    simp [tryMarker, watch_not_at_short]
  simp [tryUrlPatternAt, h1, tryMarker_self, h]

theorem searchUrl_embed (t : List Char) (h : captureId t = some t) :
    searchUrlPattern (embedMarker ++ t) = some t := by
  apply searchUrl_of_head _ _ (marker_append_ne_nil _ _ (by decide))
  have h1 : tryMarker watchMarker (embedMarker ++ t) = none := by
    simp [tryMarker, watch_not_at_embed]
  have h2 : tryMarker shortMarker (embedMarker ++ t) = none := by
    simp [tryMarker, short_not_at_embed]
  simp [tryUrlPatternAt, h1, h2, tryMarker_self, h]

theorem mem_of_begins {m s : List Char} {c : Char}
    (h : begins m s = true) (hc : c ∈ m) : c ∈ s := by
  induction m generalizing s with
  | nil => cases hc
  | cons a as ih =>
    cases s with
    | nil => simp [begins] at h
    | cons b bs =>
      simp [begins] at h
      rcases List.mem_cons.mp hc with rfl | hc2
      · rw [h.1]; exact List.mem_cons_self b bs
      · exact List.mem_cons_of_mem _ (ih h.2 hc2)

theorem begins_eq_false_of_all_id {m s : List Char} (hm : ('.' : Char) ∈ m)
    (hs : s.all isIdChar = true) : begins m s = false := by
  cases hb : begins m s with
  | false => rfl
  | true =>
    have hdot : ('.' : Char) ∈ s := mem_of_begins hb hm
    have h2 := List.all_eq_true.mp hs _ hdot
    exact absurd h2 (by decide)

theorem searchUrl_none_of_all_id (s : List Char) (hs : s.all isIdChar = true) :
    searchUrlPattern s = none := by
  induction s with
  | nil => rfl
  | cons c cs ih =>
    have hcs : cs.all isIdChar = true := by
      have hs2 := hs
      rw [List.all_cons, Bool.and_eq_true] at hs2
      exact hs2.2
    have h1 : begins watchMarker (c :: cs) = false :=
      begins_eq_false_of_all_id (by decide) hs
    have h2 : begins shortMarker (c :: cs) = false :=
      begins_eq_false_of_all_id (by decide) hs
    have h3 : begins embedMarker (c :: cs) = false :=
      begins_eq_false_of_all_id (by decide) hs
    simp [searchUrlPattern, tryUrlPatternAt, tryMarker, h1, h2, h3, ih hcs]

theorem bareToken_exact (t : List Char) (h11 : t.length = 11)
    (hid : t.all isIdChar = true) : bareToken t = some t := by
  have hlast : (t.getLast? == some '\n') = false := by
    cases hg : t.getLast? with
    | none => rfl
    | some c =>
      have hc : c ∈ t := List.mem_of_mem_getLast? hg
      have hci := List.all_eq_true.mp hid _ hc
      have hcn : c ≠ '\n' := by
        intro h; subst h; exact absurd hci (by decide)
      simp [hcn]
  simp [bareToken, hlast, h11, hid]

/-- C4: a valid eleven-character token yields the same CanonicalId, the
token itself, whether presented after the watch marker, after the
short-link marker, after the embed marker, or bare. -/
theorem extraction_shape_independent (t : List Char)
    (h11 : t.length = 11) (hid : t.all isIdChar = true) :
    extract_video_id (String.mk (watchMarker ++ t)) = some (String.mk t)
    ∧ extract_video_id (String.mk (shortMarker ++ t)) = some (String.mk t)
    ∧ extract_video_id (String.mk (embedMarker ++ t)) = some (String.mk t)
    ∧ extract_video_id (String.mk t) = some (String.mk t) := by
  have hc : captureId t = some t := captureId_exact t h11 hid
  refine ⟨?_, ?_, ?_, ?_⟩
  · simp [extract_video_id, data_mk, searchUrl_watch t hc]
  · simp [extract_video_id, data_mk, searchUrl_short t hc]
  · simp [extract_video_id, data_mk, searchUrl_embed t hc]
  · simp [extract_video_id, data_mk, searchUrl_none_of_all_id t hid,
      bareToken_exact t h11 hid]

/-- Witness for C4 at the token of the specification example. -/
theorem extraction_shape_independent_witness :
    ("dQw4w9WgXcQ".data.length = 11 ∧ "dQw4w9WgXcQ".data.all isIdChar = true)
    ∧ (extract_video_id (String.mk (watchMarker ++ "dQw4w9WgXcQ".data))
          = some (String.mk "dQw4w9WgXcQ".data)
        ∧ extract_video_id (String.mk (shortMarker ++ "dQw4w9WgXcQ".data))
          = some (String.mk "dQw4w9WgXcQ".data)
        ∧ extract_video_id (String.mk (embedMarker ++ "dQw4w9WgXcQ".data))
          = some (String.mk "dQw4w9WgXcQ".data)
        ∧ extract_video_id (String.mk "dQw4w9WgXcQ".data)
          = some (String.mk "dQw4w9WgXcQ".data)) :=
  ⟨⟨by decide, by decide⟩,
    extraction_shape_independent "dQw4w9WgXcQ".data (by decide) (by decide)⟩

/-- C10: the URL pattern is matched as an unanchored substring, so inputs
with extra surrounding text, or with more than eleven id-class characters
after a marker, are not rejected: the first eleven id-class characters
after the first marker occurrence are returned; only the bare-token shape
requires the whole input to match. -/
theorem unanchored_url_match_examples :
    extract_video_id "See https://www.youtube.com/watch?v=dQw4w9WgXcQ12345 now"
      = some "dQw4w9WgXcQ"
    ∧ extract_video_id "xxyoutu.be/abcdefghijklmnop" = some "abcdefghijk"
    ∧ extract_video_id "intro youtube.com/embed/ABC-DEF_GHIjk end"
      = some "ABC-DEF_GHI"
    ∧ extract_video_id "abcdefghijkl" = none :=
  ⟨rfl, rfl, rfl, rfl⟩

/-! ## Lemmas about the existence prober and the admission filter -/

theorem contains_eq_true_of_mem {l : List String} {v : String} (h : v ∈ l) :
    l.contains v = true := List.elem_iff.mpr h

theorem contains_eq_false_of_not_mem {l : List String} {v : String} (h : ¬ v ∈ l) :
    l.contains v = false := by
  cases hc : l.contains v with
  | false => rfl
  | true => exact absurd (List.elem_iff.mp hc) h

theorem mem_both_iff (fs : String → Option String) (l : List String) (v : String) :
    v ∈ (check_existing_videos fs l).both
      ↔ v ∈ l ∧ os_path_exists fs (raw_path v) = true
          ∧ os_path_exists fs (transcribed_path v) = true := by
  induction l with
  | nil => simp [check_existing_videos]
  | cons id rest ih =>
    by_cases hv : v = id
    · subst hv
      by_cases hr : os_path_exists fs (raw_path v) <;>
        by_cases ht : os_path_exists fs (transcribed_path v) <;>
          simp [check_existing_videos, hr, ht, ih]
    · by_cases hr : os_path_exists fs (raw_path id) <;>
        by_cases ht : os_path_exists fs (transcribed_path id) <;>
          simp [check_existing_videos, hr, ht, hv, ih]

theorem mem_raw_iff (fs : String → Option String) (l : List String) (v : String) :
    v ∈ (check_existing_videos fs l).raw_lyrics
      ↔ v ∈ l ∧ os_path_exists fs (raw_path v) = true
          ∧ os_path_exists fs (transcribed_path v) = false := by
  induction l with
  | nil => simp [check_existing_videos]
  | cons id rest ih =>
    by_cases hv : v = id
    · subst hv
      by_cases hr : os_path_exists fs (raw_path v) <;>
        by_cases ht : os_path_exists fs (transcribed_path v) <;>
          simp [check_existing_videos, hr, ht, ih]
    · by_cases hr : os_path_exists fs (raw_path id) <;>
        by_cases ht : os_path_exists fs (transcribed_path id) <;>
          simp [check_existing_videos, hr, ht, hv, ih]

theorem mem_tr_iff (fs : String → Option String) (l : List String) (v : String) :
    v ∈ (check_existing_videos fs l).transcribed_lyrics
      ↔ v ∈ l ∧ os_path_exists fs (raw_path v) = false
          ∧ os_path_exists fs (transcribed_path v) = true := by
  induction l with
  | nil => simp [check_existing_videos]
  | cons id rest ih =>
    by_cases hv : v = id
    · subst hv
      by_cases hr : os_path_exists fs (raw_path v) <;>
        by_cases ht : os_path_exists fs (transcribed_path v) <;>
          simp [check_existing_videos, hr, ht, ih]
    · by_cases hr : os_path_exists fs (raw_path id) <;>
        by_cases ht : os_path_exists fs (transcribed_path id) <;>
          simp [check_existing_videos, hr, ht, hv, ih]

theorem new_eq_filter (fs : String → Option String) (l : List String) :
    new_video_ids fs l = l.filter fun v =>
      !(os_path_exists fs (raw_path v)) && !(os_path_exists fs (transcribed_path v)) := by
  unfold new_video_ids
  apply List.filter_congr
  intro v hv
  cases hr : os_path_exists fs (raw_path v) <;>
    cases ht : os_path_exists fs (transcribed_path v)
  · have h1 : (check_existing_videos fs l).both.contains v = false :=
      contains_eq_false_of_not_mem (fun h => by
        have := ((mem_both_iff fs l v).mp h).2.1; simp [hr] at this)
    have h2 : (check_existing_videos fs l).raw_lyrics.contains v = false :=
      contains_eq_false_of_not_mem (fun h => by
        have := ((mem_raw_iff fs l v).mp h).2.1; simp [hr] at this)
    have h3 : (check_existing_videos fs l).transcribed_lyrics.contains v = false :=
      contains_eq_false_of_not_mem (fun h => by
        have := ((mem_tr_iff fs l v).mp h).2.2; simp [ht] at this)
    rw [h1, h2, h3]; simp
  · have h1 : (check_existing_videos fs l).both.contains v = false :=
      contains_eq_false_of_not_mem (fun h => by
        have := ((mem_both_iff fs l v).mp h).2.1; simp [hr] at this)
    have h2 : (check_existing_videos fs l).raw_lyrics.contains v = false :=
      contains_eq_false_of_not_mem (fun h => by
        have := ((mem_raw_iff fs l v).mp h).2.1; simp [hr] at this)
    have h3 : (check_existing_videos fs l).transcribed_lyrics.contains v = true :=
      contains_eq_true_of_mem ((mem_tr_iff fs l v).mpr ⟨hv, hr, ht⟩)
    rw [h1, h2, h3]; simp
  · have h1 : (check_existing_videos fs l).both.contains v = false :=
      contains_eq_false_of_not_mem (fun h => by
        have := ((mem_both_iff fs l v).mp h).2.2; simp [ht] at this)
    have h2 : (check_existing_videos fs l).raw_lyrics.contains v = true :=
      contains_eq_true_of_mem ((mem_raw_iff fs l v).mpr ⟨hv, hr, ht⟩)
    have h3 : (check_existing_videos fs l).transcribed_lyrics.contains v = false :=
      contains_eq_false_of_not_mem (fun h => by
        have := ((mem_tr_iff fs l v).mp h).2.2; simp [ht] at this)
    rw [h1, h2, h3]; simp
  · have h1 : (check_existing_videos fs l).both.contains v = true :=
      contains_eq_true_of_mem ((mem_both_iff fs l v).mpr ⟨hv, hr, ht⟩)
    rw [h1]; simp

theorem mem_new_iff (fs : String → Option String) (l : List String) (v : String) :
    v ∈ new_video_ids fs l
      ↔ v ∈ l ∧ os_path_exists fs (raw_path v) = false
          ∧ os_path_exists fs (transcribed_path v) = false := by
  rw [new_eq_filter, List.mem_filter]
  by_cases hr : os_path_exists fs (raw_path v) <;>
    by_cases ht : os_path_exists fs (transcribed_path v) <;> simp [hr, ht]

/-- C5: per batch, every valid CanonicalId is classified into exactly one
of the four groups: the three existence buckets are pairwise disjoint, no
id is both in a bucket and in the admission list, every valid id is in
one of the four, and the admission list holds exactly the valid ids in
none of the three buckets. -/
theorem classification_partition (fs : String → Option String)
    (vids : List String) (v : String) (hv : v ∈ vids) :
    ((check_existing_videos fs vids).both.contains v
        && (check_existing_videos fs vids).raw_lyrics.contains v) = false
    ∧ ((check_existing_videos fs vids).both.contains v
        && (check_existing_videos fs vids).transcribed_lyrics.contains v) = false
    ∧ ((check_existing_videos fs vids).raw_lyrics.contains v
        && (check_existing_videos fs vids).transcribed_lyrics.contains v) = false
    ∧ ((new_video_ids fs vids).contains v
        && (check_existing_videos fs vids).both.contains v) = false
    ∧ ((new_video_ids fs vids).contains v
        && (check_existing_videos fs vids).raw_lyrics.contains v) = false
    ∧ ((new_video_ids fs vids).contains v
        && (check_existing_videos fs vids).transcribed_lyrics.contains v) = false
    ∧ ((check_existing_videos fs vids).both.contains v
        || (check_existing_videos fs vids).raw_lyrics.contains v
        || (check_existing_videos fs vids).transcribed_lyrics.contains v
        || (new_video_ids fs vids).contains v) = true
    ∧ (new_video_ids fs vids).contains v
        = (!(check_existing_videos fs vids).both.contains v
            && !(check_existing_videos fs vids).raw_lyrics.contains v
            && !(check_existing_videos fs vids).transcribed_lyrics.contains v) := by
  cases hr : os_path_exists fs (raw_path v) <;>
    cases ht : os_path_exists fs (transcribed_path v)
  · have h1 : (check_existing_videos fs vids).both.contains v = false :=
      contains_eq_false_of_not_mem (fun h => by
        have := ((mem_both_iff fs vids v).mp h).2.1; simp [hr] at this)
    have h2 : (check_existing_videos fs vids).raw_lyrics.contains v = false :=
      contains_eq_false_of_not_mem (fun h => by
        have := ((mem_raw_iff fs vids v).mp h).2.1; simp [hr] at this)
    have h3 : (check_existing_videos fs vids).transcribed_lyrics.contains v = false :=
      contains_eq_false_of_not_mem (fun h => by
        have := ((mem_tr_iff fs vids v).mp h).2.2; simp [ht] at this)
    have h4 : (new_video_ids fs vids).contains v = true :=
      contains_eq_true_of_mem ((mem_new_iff fs vids v).mpr ⟨hv, hr, ht⟩)
    rw [h1, h2, h3, h4]; decide
  · have h1 : (check_existing_videos fs vids).both.contains v = false :=
      contains_eq_false_of_not_mem (fun h => by
        have := ((mem_both_iff fs vids v).mp h).2.1; simp [hr] at this)
    have h2 : (check_existing_videos fs vids).raw_lyrics.contains v = false :=
      contains_eq_false_of_not_mem (fun h => by
        have := ((mem_raw_iff fs vids v).mp h).2.1; simp [hr] at this)
    have h3 : (check_existing_videos fs vids).transcribed_lyrics.contains v = true :=
      contains_eq_true_of_mem ((mem_tr_iff fs vids v).mpr ⟨hv, hr, ht⟩)
    have h4 : (new_video_ids fs vids).contains v = false :=
      contains_eq_false_of_not_mem (fun h => by
        have := ((mem_new_iff fs vids v).mp h).2.2; simp [ht] at this)
    rw [h1, h2, h3, h4]; decide
  · have h1 : (check_existing_videos fs vids).both.contains v = false :=
      contains_eq_false_of_not_mem (fun h => by
        have := ((mem_both_iff fs vids v).mp h).2.2; simp [ht] at this)
    have h2 : (check_existing_videos fs vids).raw_lyrics.contains v = true :=
      contains_eq_true_of_mem ((mem_raw_iff fs vids v).mpr ⟨hv, hr, ht⟩)
    have h3 : (check_existing_videos fs vids).transcribed_lyrics.contains v = false :=
      contains_eq_false_of_not_mem (fun h => by
        have := ((mem_tr_iff fs vids v).mp h).2.1; simp [hr] at this)
    have h4 : (new_video_ids fs vids).contains v = false :=
      contains_eq_false_of_not_mem (fun h => by
        have := ((mem_new_iff fs vids v).mp h).2.1; simp [hr] at this)
    rw [h1, h2, h3, h4]; decide
  · have h1 : (check_existing_videos fs vids).both.contains v = true :=
      contains_eq_true_of_mem ((mem_both_iff fs vids v).mpr ⟨hv, hr, ht⟩)
    have h2 : (check_existing_videos fs vids).raw_lyrics.contains v = false :=
      contains_eq_false_of_not_mem (fun h => by
        have := ((mem_raw_iff fs vids v).mp h).2.2; simp [ht] at this)
    have h3 : (check_existing_videos fs vids).transcribed_lyrics.contains v = false :=
      contains_eq_false_of_not_mem (fun h => by
        have := ((mem_tr_iff fs vids v).mp h).2.1; simp [hr] at this)
    have h4 : (new_video_ids fs vids).contains v = false :=
      contains_eq_false_of_not_mem (fun h => by
        have := ((mem_new_iff fs vids v).mp h).2.1; simp [hr] at this)
    rw [h1, h2, h3, h4]; decide

/-- Witness for C5 on a one-id batch over a filesystem holding only the
tier A artifact of that id. -/
theorem classification_partition_witness :
    ("aaaaaaaaaaa" ∈ (["aaaaaaaaaaa"] : List String))
    ∧ (((check_existing_videos fsZeroByte ["aaaaaaaaaaa"]).both.contains "aaaaaaaaaaa"
          && (check_existing_videos fsZeroByte ["aaaaaaaaaaa"]).raw_lyrics.contains "aaaaaaaaaaa") = false
        ∧ ((check_existing_videos fsZeroByte ["aaaaaaaaaaa"]).both.contains "aaaaaaaaaaa"
          && (check_existing_videos fsZeroByte ["aaaaaaaaaaa"]).transcribed_lyrics.contains "aaaaaaaaaaa") = false
        ∧ ((check_existing_videos fsZeroByte ["aaaaaaaaaaa"]).raw_lyrics.contains "aaaaaaaaaaa"
          && (check_existing_videos fsZeroByte ["aaaaaaaaaaa"]).transcribed_lyrics.contains "aaaaaaaaaaa") = false
        ∧ ((new_video_ids fsZeroByte ["aaaaaaaaaaa"]).contains "aaaaaaaaaaa"
          && (check_existing_videos fsZeroByte ["aaaaaaaaaaa"]).both.contains "aaaaaaaaaaa") = false
        ∧ ((new_video_ids fsZeroByte ["aaaaaaaaaaa"]).contains "aaaaaaaaaaa"
          && (check_existing_videos fsZeroByte ["aaaaaaaaaaa"]).raw_lyrics.contains "aaaaaaaaaaa") = false
        ∧ ((new_video_ids fsZeroByte ["aaaaaaaaaaa"]).contains "aaaaaaaaaaa"
          && (check_existing_videos fsZeroByte ["aaaaaaaaaaa"]).transcribed_lyrics.contains "aaaaaaaaaaa") = false
        ∧ ((check_existing_videos fsZeroByte ["aaaaaaaaaaa"]).both.contains "aaaaaaaaaaa"
          || (check_existing_videos fsZeroByte ["aaaaaaaaaaa"]).raw_lyrics.contains "aaaaaaaaaaa"
          || (check_existing_videos fsZeroByte ["aaaaaaaaaaa"]).transcribed_lyrics.contains "aaaaaaaaaaa"
          || (new_video_ids fsZeroByte ["aaaaaaaaaaa"]).contains "aaaaaaaaaaa") = true
        ∧ (new_video_ids fsZeroByte ["aaaaaaaaaaa"]).contains "aaaaaaaaaaa"
          = (!(check_existing_videos fsZeroByte ["aaaaaaaaaaa"]).both.contains "aaaaaaaaaaa"
              && !(check_existing_videos fsZeroByte ["aaaaaaaaaaa"]).raw_lyrics.contains "aaaaaaaaaaa"
              && !(check_existing_videos fsZeroByte ["aaaaaaaaaaa"]).transcribed_lyrics.contains "aaaaaaaaaaa")) :=
  ⟨by decide,
    classification_partition fsZeroByte ["aaaaaaaaaaa"] "aaaaaaaaaaa" (by decide)⟩

/-- C6: the four-way classification depends only on which of the two
artifact paths per id exist, never on the file contents, so zero-byte or
corrupt artifacts count as present; and when nothing exists under the
tier A directory, every id is classified as lacking a tier A artifact
and the probe still returns its buckets instead of failing. -/
theorem probe_existence_only (fs1 fs2 fs : String → Option String)
    (vids : List String) (v : String)
    (hagree : ∀ p, (fs1 p).isSome = (fs2 p).isSome)
    (hnoraw : ∀ p, fs (RAW_LYRICS_DIR ++ "/" ++ p) = none) :
    check_existing_videos fs1 vids = check_existing_videos fs2 vids
    ∧ new_video_ids fs1 vids = new_video_ids fs2 vids
    ∧ os_path_exists fs (raw_path v) = false
    ∧ (check_existing_videos fs vids).both = []
    ∧ (check_existing_videos fs vids).raw_lyrics = [] := by
  have hosp : ∀ p, os_path_exists fs1 p = os_path_exists fs2 p := fun p => by
    simp [os_path_exists, hagree p]
  have hcheck : ∀ l, check_existing_videos fs1 l = check_existing_videos fs2 l := by
    intro l
    induction l with
    | nil => rfl
    | cons id rest ih => simp [check_existing_videos, hosp, ih]
  have hrawv : ∀ u, os_path_exists fs (raw_path u) = false := fun u => by
    simp [os_path_exists, raw_path, hnoraw (u ++ ".json")]
  have hempty : ∀ l, (check_existing_videos fs l).both = []
      ∧ (check_existing_videos fs l).raw_lyrics = [] := by
    intro l
    induction l with
    | nil => exact ⟨rfl, rfl⟩
    | cons id rest ih =>
      by_cases htr : os_path_exists fs (transcribed_path id) <;>
        simp [check_existing_videos, hrawv id, htr, ih]
  exact ⟨hcheck vids, by simp [new_video_ids, hcheck vids],
    hrawv v, (hempty vids).1, (hempty vids).2⟩

/-- Witness for C6: a zero-byte and a corrupt artifact at the same path
classify identically, and the empty filesystem has an empty tier A. -/
theorem probe_existence_only_witness :
    (∀ p, (fsZeroByte p).isSome = (fsCorrupt p).isSome)
    ∧ (∀ p, fsEmpty (RAW_LYRICS_DIR ++ "/" ++ p) = none)
    ∧ (check_existing_videos fsZeroByte ["aaaaaaaaaaa"]
        = check_existing_videos fsCorrupt ["aaaaaaaaaaa"]
      ∧ new_video_ids fsZeroByte ["aaaaaaaaaaa"]
        = new_video_ids fsCorrupt ["aaaaaaaaaaa"]
      ∧ os_path_exists fsEmpty (raw_path "aaaaaaaaaaa") = false
      ∧ (check_existing_videos fsEmpty ["aaaaaaaaaaa"]).both = []
      ∧ (check_existing_videos fsEmpty ["aaaaaaaaaaa"]).raw_lyrics = []) := by
  have hagree : ∀ p, (fsZeroByte p).isSome = (fsCorrupt p).isSome := by
    intro p
    by_cases h : p = raw_path "aaaaaaaaaaa" <;> simp [fsZeroByte, fsCorrupt, h]
  have hnoraw : ∀ p, fsEmpty (RAW_LYRICS_DIR ++ "/" ++ p) = none := fun _ => rfl
  exact ⟨hagree, hnoraw,
    probe_existence_only fsZeroByte fsCorrupt fsEmpty ["aaaaaaaaaaa"] "aaaaaaaaaaa"
      hagree hnoraw⟩

/-! ## The extraction loop of handle_process -/

/-- C8: whitespace-only raw references are silently skipped, contributing
nothing to the recognized ids and nothing to invalid_urls, while a
malformed reference that stays non-empty after trimming contributes no id
and is reported in invalid_urls. -/
theorem whitespace_skipped_malformed_reported (u1 u2 : String) (rest : List String)
    (hws : pyStrip u1 = "") (hne : pyStrip u2 ≠ "")
    (hbad : extract_video_id (pyStrip u2) = none) :
    splitUrls (u1 :: rest) = splitUrls rest
    ∧ (splitUrls (u2 :: rest)).1 = (splitUrls rest).1
    ∧ (splitUrls (u2 :: rest)).2 = pyStrip u2 :: (splitUrls rest).2 := by
  refine ⟨?_, ?_, ?_⟩
  · simp [splitUrls, hws]
  · simp [splitUrls, hne, hbad]
  · simp [splitUrls, hne, hbad]

/-- Witness for C8 on a whitespace-only and a malformed reference. -/
theorem whitespace_skipped_malformed_reported_witness :
    (pyStrip "   " = "" ∧ pyStrip " not-a-url " ≠ ""
      ∧ extract_video_id (pyStrip " not-a-url ") = none)
    ∧ (splitUrls ["   ", "dQw4w9WgXcQ"] = splitUrls ["dQw4w9WgXcQ"]
      ∧ (splitUrls [" not-a-url ", "dQw4w9WgXcQ"]).1 = (splitUrls ["dQw4w9WgXcQ"]).1
      ∧ (splitUrls [" not-a-url ", "dQw4w9WgXcQ"]).2
          = pyStrip " not-a-url " :: (splitUrls ["dQw4w9WgXcQ"]).2) :=
  ⟨⟨by decide, by decide, by decide⟩,
    whitespace_skipped_malformed_reported "   " " not-a-url " ["dQw4w9WgXcQ"]
      (by decide) (by decide) (by decide)⟩

/-- C7 counterexample: a submission whose only reference carries
surrounding whitespace and no recognized shape answers with an
invalid_urls list holding the trimmed form only; the string as submitted
is not an element of it, refuting character-for-character verbatim
reporting of the submission. -/
theorem invalid_verbatim_refuted :
    handle_process fsEmpty popenOk [" not-a-url "]
      = ProcResult.noValidIds ["not-a-url"]
    ∧ (["not-a-url"] : List String).contains " not-a-url " = false := by
  refine ⟨by decide, by decide⟩

/-- C7 amended: each reference that is non-empty after trimming and
matches no recognized shape appears in invalid_urls verbatim in its
trimmed form, which coincides with the submission exactly when the
submission carries no surrounding whitespace. -/
theorem stripped_invalid_reported (urls : List String) (url : String)
    (hmem : url ∈ urls) (hne : pyStrip url ≠ "")
    (hbad : extract_video_id (pyStrip url) = none) :
    pyStrip url ∈ (splitUrls urls).2 := by
  induction urls with
  | nil => cases hmem
  | cons u rest ih =>
    rcases List.mem_cons.mp hmem with rfl | hm
    · simp [splitUrls, hne, hbad]
    · have hr := ih hm
      by_cases h0 : pyStrip u = ""
      · simpa [splitUrls, h0] using hr
      · cases he : extract_video_id (pyStrip u) with
        | some vid => simpa [splitUrls, h0, he] using hr
        | none =>
          simp [splitUrls, h0, he]
          exact Or.inr hr

/-- Witness for the amended C7. -/
theorem stripped_invalid_reported_witness :
    (" not-a-url " ∈ ([" not-a-url "] : List String)
      ∧ pyStrip " not-a-url " ≠ ""
      ∧ extract_video_id (pyStrip " not-a-url ") = none)
    ∧ pyStrip " not-a-url " ∈ (splitUrls [" not-a-url "]).2 :=
  ⟨⟨by decide, by decide, by decide⟩,
    stripped_invalid_reported [" not-a-url "] " not-a-url "
      (by decide) (by decide) (by decide)⟩

/-! ## The worker dispatcher -/

theorem dispatch_ok_length (popen : String → Except String Nat) (l : List String)
    (pids : List Nat) (h : (dispatch popen l).2 = Except.ok pids) :
    pids.length = l.length := by
  induction l generalizing pids with
  | nil =>
    simp [dispatch] at h
    simp [← h]
  | cons id rest ih =>
    cases hp : popen id with
    | error e => simp [dispatch, hp] at h
    | ok pid =>
      simp only [dispatch, hp] at h
      cases hr : (dispatch popen rest).2 with
      | error e => rw [hr] at h; simp [Except.map] at h
      | ok ps =>
        rw [hr] at h
        simp [Except.map] at h
        rw [← h]
        simp [ih ps hr]

theorem dispatch_fail_after (popen : String → Except String Nat)
    (pre post : List String) (id e : String)
    (hfail : popen id = Except.error e)
    (hpre : ∀ v ∈ pre, ∃ pid, popen v = Except.ok pid) :
    (dispatch popen (pre ++ id :: post)).1 = pre ++ [id]
    ∧ (dispatch popen (pre ++ id :: post)).2 = Except.error e := by
  induction pre with
  | nil => simp [dispatch, hfail]
  | cons a pre2 ih =>
    obtain ⟨pid, ha⟩ := hpre a (List.mem_cons_self a pre2)
    have ih2 := ih fun v hv => hpre v (List.mem_cons_of_mem a hv)
    simp [dispatch, ha, ih2.1, ih2.2, Except.map]

/-! ## Unfolding handle_process on its three non-trivial paths -/

theorem handle_process_noop_eq (fs : String → Option String)
    (popen : String → Except String Nat) (urls : List String)
    (hu : urls ≠ []) (hv : (splitUrls urls).1 ≠ [])
    (hn : new_video_ids fs (splitUrls urls).1 = []) :
    handle_process fs popen urls
      = ProcResult.allExist (splitUrls urls).1 (splitUrls urls).2
          (check_existing_videos fs (splitUrls urls).1) := by
  simp [handle_process, hu, hv, hn]

theorem handle_process_eq (fs : String → Option String)
    (popen : String → Except String Nat) (urls : List String)
    (hu : urls ≠ []) (hv : (splitUrls urls).1 ≠ [])
    (hn : new_video_ids fs (splitUrls urls).1 ≠ []) :
    handle_process fs popen urls
      = match (dispatch popen (new_video_ids fs (splitUrls urls).1)).2 with
        | Except.error e => ProcResult.launchFailed ("Failed to start process: " ++ e)
        | Except.ok pids =>
          ProcResult.dispatched (splitUrls urls).1
            (new_video_ids fs (splitUrls urls).1) (splitUrls urls).2
            (check_existing_videos fs (splitUrls urls).1) pids := by
  simp [handle_process, hu, hv, hn]

/-! ## The no-op path, batch abort, duplicates and status codes -/

/-- C3: when every valid id of the batch already has an artifact in some
tier, so the admission list is empty, the response is the skipped no-op
carrying the valid ids and buckets, with no process ids field, and the
launch oracle is never consulted: any two oracles yield the same
response. -/
theorem empty_admission_is_noop (fs : String → Option String)
    (popen popen2 : String → Except String Nat) (urls : List String)
    (hu : urls ≠ []) (hv : (splitUrls urls).1 ≠ [])
    (hn : new_video_ids fs (splitUrls urls).1 = []) :
    handle_process fs popen urls
      = ProcResult.allExist (splitUrls urls).1 (splitUrls urls).2
          (check_existing_videos fs (splitUrls urls).1)
    ∧ (handle_process fs popen urls).skippedFlag = true
    ∧ (handle_process fs popen urls).processIds = none
    ∧ handle_process fs popen urls = handle_process fs popen2 urls := by
  have h1 := handle_process_noop_eq fs popen urls hu hv hn
  have h2 := handle_process_noop_eq fs popen2 urls hu hv hn
  exact ⟨h1, by rw [h1]; rfl, by rw [h1]; rfl, by rw [h1, h2]⟩

/-- Witness for C3: one id, both artifacts present, any two oracles. -/
theorem empty_admission_is_noop_witness :
    ((["aaaaaaaaaaa"] : List String) ≠ []
      ∧ (splitUrls ["aaaaaaaaaaa"]).1 ≠ []
      ∧ new_video_ids fsBothForA (splitUrls ["aaaaaaaaaaa"]).1 = [])
    ∧ (handle_process fsBothForA popenOk ["aaaaaaaaaaa"]
        = ProcResult.allExist (splitUrls ["aaaaaaaaaaa"]).1 (splitUrls ["aaaaaaaaaaa"]).2
            (check_existing_videos fsBothForA (splitUrls ["aaaaaaaaaaa"]).1)
      ∧ (handle_process fsBothForA popenOk ["aaaaaaaaaaa"]).skippedFlag = true
      ∧ (handle_process fsBothForA popenOk ["aaaaaaaaaaa"]).processIds = none
      ∧ handle_process fsBothForA popenOk ["aaaaaaaaaaa"]
          = handle_process fsBothForA popenBoom ["aaaaaaaaaaa"]) :=
  ⟨⟨by decide, by decide, by decide⟩,
    empty_admission_is_noop fsBothForA popenOk popenBoom ["aaaaaaaaaaa"]
      (by decide) (by decide) (by decide)⟩

/-- C2 counterexample: three admitted ids and an oracle raising on the
second: the batch answers with the 500 failure response and the third id
is never attempted, so one launch failure does prevent the dispatch
attempts after it even though the first launch succeeded. -/
theorem launch_isolation_refuted :
    handle_process fsEmpty popenFailB urlsABC
      = ProcResult.launchFailed "Failed to start process: No such file or directory"
    ∧ (dispatch popenFailB (new_video_ids fsEmpty (splitUrls urlsABC).1)).1
      = ["aaaaaaaaaaa", "bbbbbbbbbbb"] := by
  refine ⟨by decide, by decide⟩

/-- C2 amended: a launch failure for any admitted id, not only the first,
aborts the batch: the loop attempts the failing id after the earlier
successes, never reaches the later admitted ids, and the batch returns
the 500 failure response built from the raised message. -/
theorem launch_failure_aborts_batch (fs : String → Option String)
    (popen : String → Except String Nat) (urls : List String)
    (pre post : List String) (id e : String)
    (hfail : popen id = Except.error e)
    (hpre : ∀ v ∈ pre, ∃ pid, popen v = Except.ok pid)
    (hu : urls ≠ []) (hv : (splitUrls urls).1 ≠ [])
    (hn : new_video_ids fs (splitUrls urls).1 = pre ++ id :: post) :
    (dispatch popen (pre ++ id :: post)).1 = pre ++ [id]
    ∧ (dispatch popen (pre ++ id :: post)).2 = Except.error e
    ∧ handle_process fs popen urls
        = ProcResult.launchFailed ("Failed to start process: " ++ e) := by
  have hd := dispatch_fail_after popen pre post id e hfail hpre
  have hnn : new_video_ids fs (splitUrls urls).1 ≠ [] := by
    rw [hn]
    intro hc
    exact absurd (List.append_eq_nil.mp hc).2 (List.cons_ne_nil id post)
  have he := handle_process_eq fs popen urls hu hv hnn
  refine ⟨hd.1, hd.2, ?_⟩
  rw [he, hn, hd.2]

/-- Witness for the amended C2 at the three-id batch. -/
theorem launch_failure_aborts_batch_witness :
    (popenFailB "bbbbbbbbbbb" = Except.error "No such file or directory"
      ∧ (∀ v ∈ (["aaaaaaaaaaa"] : List String), ∃ pid, popenFailB v = Except.ok pid)
      ∧ urlsABC ≠ []
      ∧ (splitUrls urlsABC).1 ≠ []
      ∧ new_video_ids fsEmpty (splitUrls urlsABC).1
          = ["aaaaaaaaaaa"] ++ "bbbbbbbbbbb" :: ["ccccccccccc"])
    ∧ ((dispatch popenFailB (["aaaaaaaaaaa"] ++ "bbbbbbbbbbb" :: ["ccccccccccc"])).1
        = ["aaaaaaaaaaa"] ++ ["bbbbbbbbbbb"]
      ∧ (dispatch popenFailB (["aaaaaaaaaaa"] ++ "bbbbbbbbbbb" :: ["ccccccccccc"])).2
        = Except.error "No such file or directory"
      ∧ handle_process fsEmpty popenFailB urlsABC
        = ProcResult.launchFailed ("Failed to start process: "
            ++ "No such file or directory")) :=
  ⟨⟨rfl,
      by intro v hv; simp at hv; subst hv; exact ⟨2000, rfl⟩,
      by decide, by decide, by decide⟩,
    launch_failure_aborts_batch fsEmpty popenFailB urlsABC
      ["aaaaaaaaaaa"] ["ccccccccccc"] "bbbbbbbbbbb" "No such file or directory"
      rfl
      (by intro v hv; simp at hv; subst hv; exact ⟨2000, rfl⟩)
      (by decide) (by decide) (by decide)⟩

/-- C1 counterexample: the example batch of the specification with no
existing artifacts yields the id dQw4w9WgXcQ twice in the recognized
list, twice in the admitted list, and two dispatch handles: duplicate
references resolving to the same CanonicalId are not collapsed. -/
theorem duplicates_not_collapsed_refuted :
    handle_process fsEmpty popenOk exampleUrls
      = ProcResult.dispatched ["dQw4w9WgXcQ", "dQw4w9WgXcQ"]
          ["dQw4w9WgXcQ", "dQw4w9WgXcQ"] ["not-a-url"] ⟨[], [], []⟩ [1000, 1000]
    ∧ (new_video_ids fsEmpty (splitUrls exampleUrls).1).count "dQw4w9WgXcQ" = 2 := by
  refine ⟨by decide, by decide⟩

/-- C1 amended: duplicates are kept, not collapsed: the recognized list
holds one id per valid reference in submission order, the admitted list
is that list filtered by artifact absence, one entry per occurrence in
the same order, and exactly one dispatch handle arises per admitted
entry. -/
theorem one_entry_per_occurrence (fs : String → Option String)
    (popen : String → Except String Nat) (urls : List String)
    (vids newIds inv : List String) (ex : Existing) (pids : List Nat)
    (h : handle_process fs popen urls
        = ProcResult.dispatched vids newIds inv ex pids) :
    vids = (splitUrls urls).1
    ∧ newIds = (vids.filter fun v =>
        !(os_path_exists fs (raw_path v)) && !(os_path_exists fs (transcribed_path v)))
    ∧ pids.length = newIds.length := by
  by_cases hu : urls = []
  · rw [hu] at h; simp [handle_process] at h
  · by_cases hv : (splitUrls urls).1 = []
    · simp [handle_process, hu, hv] at h
    · by_cases hn : new_video_ids fs (splitUrls urls).1 = []
      · simp [handle_process, hu, hv, hn] at h
      · have he := handle_process_eq fs popen urls hu hv hn
        rw [he] at h
        cases hd : (dispatch popen (new_video_ids fs (splitUrls urls).1)).2 with
        | error e => rw [hd] at h; simp at h
        | ok ps =>
          rw [hd] at h
          simp only [ProcResult.dispatched.injEq] at h
          obtain ⟨h1, h2, h3, h4, h5⟩ := h
          subst h1
          subst h2
          subst h5
          exact ⟨rfl, new_eq_filter fs (splitUrls urls).1,
            dispatch_ok_length popen _ ps hd⟩

/-- Witness for the amended C1 at the example batch. -/
theorem one_entry_per_occurrence_witness :
    (handle_process fsEmpty popenOk exampleUrls
        = ProcResult.dispatched ["dQw4w9WgXcQ", "dQw4w9WgXcQ"]
            ["dQw4w9WgXcQ", "dQw4w9WgXcQ"] ["not-a-url"] ⟨[], [], []⟩ [1000, 1000])
    ∧ ((["dQw4w9WgXcQ", "dQw4w9WgXcQ"] : List String) = (splitUrls exampleUrls).1
      ∧ (["dQw4w9WgXcQ", "dQw4w9WgXcQ"] : List String)
          = ((["dQw4w9WgXcQ", "dQw4w9WgXcQ"] : List String).filter fun v =>
              !(os_path_exists fsEmpty (raw_path v))
                && !(os_path_exists fsEmpty (transcribed_path v)))
      ∧ ([1000, 1000] : List Nat).length
          = (["dQw4w9WgXcQ", "dQw4w9WgXcQ"] : List String).length) :=
  ⟨by decide,
    one_entry_per_occurrence fsEmpty popenOk exampleUrls
      ["dQw4w9WgXcQ", "dQw4w9WgXcQ"] ["dQw4w9WgXcQ", "dQw4w9WgXcQ"]
      ["not-a-url"] ⟨[], [], []⟩ [1000, 1000] (by decide)⟩

/-- C9 counterexample: a batch with one valid id and a raising launch
answers with the 500 failure response, so the response is a failure that
is not 400-equivalent although a valid CanonicalId was extracted,
refuting the two-way 400-or-200 dichotomy. -/
theorem status_dichotomy_refuted :
    handle_process fsEmpty popenBoom ["aaaaaaaaaaa"]
      = ProcResult.launchFailed "Failed to start process: boom"
    ∧ (handle_process fsEmpty popenBoom ["aaaaaaaaaaa"]).status = 500
    ∧ (splitUrls ["aaaaaaaaaaa"]).1 = ["aaaaaaaaaaa"] := by
  refine ⟨by decide, by decide, by decide⟩

/-- C9 amended: the status is 400 exactly when no valid id was extracted
(the empty batch included); with valid ids it is 500 exactly when the
admission list is non-empty and the launch loop raises, and 200 exactly
otherwise, the no-op case included. -/
theorem status_classification (fs : String → Option String)
    (popen : String → Except String Nat) (urls : List String) :
    ((handle_process fs popen urls).status = 400 ↔ (splitUrls urls).1.isEmpty = true)
    ∧ ((handle_process fs popen urls).status = 500
        ↔ ((splitUrls urls).1.isEmpty = false
            ∧ (new_video_ids fs (splitUrls urls).1).isEmpty = false
            ∧ ∃ e, (dispatch popen (new_video_ids fs (splitUrls urls).1)).2
                = Except.error e))
    ∧ ((handle_process fs popen urls).status = 200
        ↔ ((splitUrls urls).1.isEmpty = false
            ∧ ((new_video_ids fs (splitUrls urls).1).isEmpty = true
              ∨ ∃ pids, (dispatch popen (new_video_ids fs (splitUrls urls).1)).2
                  = Except.ok pids))) := by
  by_cases hu : urls = []
  · subst hu
    simp [handle_process, splitUrls, new_video_ids, check_existing_videos,
      ProcResult.status]
  · by_cases hv : (splitUrls urls).1 = []
    · simp [handle_process, hu, hv, ProcResult.status]
    · have hvF : (splitUrls urls).1.isEmpty = false := by
        cases hl : (splitUrls urls).1 with
        | nil => exact absurd hl hv
        | cons a as => rfl
      by_cases hn : new_video_ids fs (splitUrls urls).1 = []
      · have he := handle_process_noop_eq fs popen urls hu hv hn
        rw [he]
        simp [ProcResult.status, hn, hvF]
      · have hnF : (new_video_ids fs (splitUrls urls).1).isEmpty = false := by
          cases hl : new_video_ids fs (splitUrls urls).1 with
          | nil => exact absurd hl hn
          | cons a as => rfl
        have he := handle_process_eq fs popen urls hu hv hn
        rw [he]
        cases hd : (dispatch popen (new_video_ids fs (splitUrls urls).1)).2 with
        | error e => simp [ProcResult.status, hvF, hnF, hd]
        | ok ps => simp [ProcResult.status, hvF, hnF, hd]

end EasySong
